import Mathlib

/-!
Verification of the e-commerce product upload / reconciliation / summary
code (e_commerce_platform/products: upload_data.py, utils.py, views.py,
models.py) against its natural-language specification.

Numeric model: Django FloatField columns (price, rating) are embedded as ℚ,
IntegerField columns (quantity_sold, review_count) as ℤ.  Python true
division `/` raises ZeroDivisionError on a zero divisor, so it is embedded
as a fallible operation in the Except monad.  The record store
(Product.objects) is embedded as a list of records; `filter(product_id=...)`
is a list filter, `save()` replaces the stored record with the same unique
`product_id`.
-/

namespace ECommerce

/-- Exception kinds the embedded code can raise (mirroring the Python
exception classes the source mentions: ZeroDivisionError from `/`,
IndexError from list indexing, django IntegrityError from a uniqueness
conflict, ValueError from `max` of an empty sequence, and a catch-all for
any other exception). -/
inductive PyExc where
  | zeroDivisionError
  | indexError
  | integrityError
  | valueError
  | otherError
deriving Repr, DecidableEq

/-- Python float true division `a / b`: raises ZeroDivisionError when the
divisor is zero, otherwise returns the quotient. -/
def pydiv (a b : ℚ) : Except PyExc ℚ :=
  if b = 0 then .error .zeroDivisionError else .ok (a / b)

/-- The Product model of models.py: product_id is a unique CharField,
product_name and category are CharFields, price and rating are FloatFields
(embedded as ℚ), quantity_sold and review_count are IntegerFields
(embedded as ℤ). -/
structure Product where
  product_id : String
  product_name : String
  category : String
  price : ℚ
  quantity_sold : ℤ
  rating : ℚ
  review_count : ℤ
deriving Repr, DecidableEq

/-- Python str.lower, embedded over the underlying character list
(Char.toLower lowercases the ASCII range, which is what the repository's
identity fields use). -/
def py_lower (s : String) : String := String.mk (s.data.map Char.toLower)

/-- The merged-field computation inside modify_already_existing_data
(upload_data.py lines 84-99), exactly as the source writes it, operator
precedence included: the quantity divisor applies only to the incoming
term of new_rating and new_price, and the stored quantity_sold is set to
the incoming record's value (not the computed sum). -/
def modify_merge (existing incoming : Product) : Except PyExc Product := do
  let new_review_count := existing.review_count + incoming.review_count
  let new_quantity_sold := existing.quantity_sold + incoming.quantity_sold
  let new_rating := existing.rating * (existing.quantity_sold : ℚ) +
    (← pydiv (incoming.rating * (incoming.quantity_sold : ℚ)) ((new_quantity_sold : ℤ) : ℚ))
  let new_price := existing.price * (existing.quantity_sold : ℚ) +
    (← pydiv (incoming.price * (incoming.quantity_sold : ℚ)) ((new_quantity_sold : ℤ) : ℚ))
  return { existing with
    price := new_price
    rating := new_rating
    review_count := new_review_count
    quantity_sold := incoming.quantity_sold }

/-- Django `instance.save()` on a fetched record: the stored row with the
same unique product_id is replaced by the updated instance; every other
row is untouched. -/
def save_update : List Product → Product → List Product
  | [], _ => []
  | p :: ps, m => if p.product_id = m.product_id then m :: ps else p :: save_update ps m

/-- modify_already_existing_data (upload_data.py lines 76-103) over a store
embedded as a list of records: fetch by product_id; if a record exists and
both product_name and category match case-insensitively, compute the merge
and save it; a mismatch is a silent no-op; the surrounding
`except Exception: print(e)` turns any exception inside (in particular the
ZeroDivisionError from modify_merge) into a no-op as well. -/
def modify_already_existing_data (store : List Product) (inst : Product) : List Product :=
  match (store.filter fun p => p.product_id = inst.product_id).head? with
  | none => store
  | some existing =>
    if py_lower inst.product_name = py_lower existing.product_name ∧
        py_lower inst.category = py_lower existing.category then
      match modify_merge existing inst with
      | .ok merged => save_update store merged
      | .error _ => store
    else store

/-- Modelled from the spec: the standard quantity-weighted mean of two
values, the formula section 9 of the spec states as the intended merge
formula for price and rating. -/
def weighted_mean (v1 : ℚ) (q1 : ℤ) (v2 : ℚ) (q2 : ℤ) : ℚ :=
  (v1 * (q1 : ℚ) + v2 * (q2 : ℚ)) / ((q1 : ℚ) + (q2 : ℚ))

lemma modify_merge_ok (e i : Product) (hq : e.quantity_sold + i.quantity_sold ≠ 0) :
    modify_merge e i = .ok
      { e with
        price := e.price * (e.quantity_sold : ℚ) +
          i.price * (i.quantity_sold : ℚ) / (((e.quantity_sold + i.quantity_sold : ℤ)) : ℚ)
        rating := e.rating * (e.quantity_sold : ℚ) +
          i.rating * (i.quantity_sold : ℚ) / (((e.quantity_sold + i.quantity_sold : ℤ)) : ℚ)
        review_count := e.review_count + i.review_count
        quantity_sold := i.quantity_sold } := by
  have hden : (((e.quantity_sold + i.quantity_sold : ℤ)) : ℚ) ≠ 0 := by
    exact_mod_cast hq
  push_cast at hden
  simp [modify_merge, pydiv, hden, Bind.bind, Except.bind, pure, Except.pure]

lemma modify_merge_zero (e i : Product) (hq : e.quantity_sold + i.quantity_sold = 0) :
    modify_merge e i = .error .zeroDivisionError := by
  have hden : (((e.quantity_sold + i.quantity_sold : ℤ)) : ℚ) = 0 := by
    rw [hq]; norm_num
  push_cast at hden
  simp [modify_merge, pydiv, hden, Bind.bind, Except.bind]

/-- An existing stored record used in the concrete merge evaluations. -/
def w_existing : Product :=
  { product_id := "W1", product_name := "Widget", category := "Tools",
    price := 4, quantity_sold := 1, rating := 4, review_count := 1 }

/-- An incoming record with the same product_id and with product_name and
category matching the stored record up to letter case. -/
def w_incoming : Product :=
  { product_id := "W1", product_name := "widget", category := "tools",
    price := 2, quantity_sold := 1, rating := 2, review_count := 2 }

/-- An existing stored record whose quantity_sold is 0. -/
def z_existing : Product :=
  { product_id := "Z1", product_name := "Widget", category := "Tools",
    price := 4, quantity_sold := 0, rating := 4, review_count := 1 }

/-- An incoming record matching z_existing up to letter case, also with
quantity_sold 0, so the merge divisor existing + incoming quantity is 0. -/
def z_incoming : Product :=
  { product_id := "Z1", product_name := "widget", category := "tools",
    price := 2, quantity_sold := 0, rating := 2, review_count := 2 }

/-- Claim C1: the code does not compute the quantity-weighted mean.  At the
concrete merge of w_existing (rating 4, price 4, qty 1) with w_incoming
(rating 2, price 2, qty 1) the code stores rating 5 and price 5
(4 times 1 plus the quotient of 2 times 1 by 2), while the weighted mean of
the same inputs is 3; so the stored values and the weighted mean differ. -/
theorem merge_formula_defect :
    modify_already_existing_data [w_existing] w_incoming =
      [{ w_existing with price := 5, rating := 5, review_count := 3, quantity_sold := 1 }] ∧
    weighted_mean w_existing.rating w_existing.quantity_sold
      w_incoming.rating w_incoming.quantity_sold = 3 ∧
    weighted_mean w_existing.price w_existing.quantity_sold
      w_incoming.price w_incoming.quantity_sold = 3 ∧
    (5 : ℚ) ≠ 3 := by
  have hq : w_existing.quantity_sold + w_incoming.quantity_sold ≠ 0 := by decide
  refine ⟨?_, ?_, ?_, by norm_num⟩
  · have hfind : (([w_existing] : List Product).filter
        fun p => p.product_id = w_incoming.product_id).head? = some w_existing := by decide
    have hn : py_lower w_incoming.product_name = py_lower w_existing.product_name := by decide
    have hc : py_lower w_incoming.category = py_lower w_existing.category := by decide
    simp only [modify_already_existing_data, hfind, hn, hc, and_self, if_true,
      modify_merge_ok w_existing w_incoming hq]
    norm_num [save_update, w_existing, w_incoming, Product.mk.injEq]
  · norm_num [weighted_mean, w_existing, w_incoming]
  · norm_num [weighted_mean, w_existing, w_incoming]

/-- Claim C2: in every merge that completes (product_id found, name and
category match case-insensitively, combined quantity nonzero), the stored
quantity_sold is the incoming record's value alone, even though the sum of
the two quantities is the divisor in the rating and price formulas. -/
theorem merge_quantity_replaced
    (store : List Product) (inst e : Product)
    (hfind : (store.filter fun p => p.product_id = inst.product_id).head? = some e)
    (hname : py_lower inst.product_name = py_lower e.product_name)
    (hcat : py_lower inst.category = py_lower e.category)
    (hq : e.quantity_sold + inst.quantity_sold ≠ 0) :
    ∃ m, modify_merge e inst = .ok m ∧
      m.quantity_sold = inst.quantity_sold ∧
      m.rating = e.rating * (e.quantity_sold : ℚ) +
        inst.rating * (inst.quantity_sold : ℚ) /
          (((e.quantity_sold + inst.quantity_sold : ℤ)) : ℚ) ∧
      modify_already_existing_data store inst = save_update store m := by
  refine ⟨_, modify_merge_ok e inst hq, rfl, rfl, ?_⟩
  simp [modify_already_existing_data, hfind, hname, hcat, modify_merge_ok e inst hq]

/-- Witness for merge_quantity_replaced at the concrete store [w_existing]
and incoming record w_incoming. -/
theorem merge_quantity_replaced_witness :
    ∃ m, modify_merge w_existing w_incoming = .ok m ∧
      m.quantity_sold = w_incoming.quantity_sold ∧
      m.rating = w_existing.rating * (w_existing.quantity_sold : ℚ) +
        w_incoming.rating * (w_incoming.quantity_sold : ℚ) /
          (((w_existing.quantity_sold + w_incoming.quantity_sold : ℤ)) : ℚ) ∧
      modify_already_existing_data [w_existing] w_incoming = save_update [w_existing] m :=
  merge_quantity_replaced [w_existing] w_incoming w_existing
    (by decide) (by decide) (by decide) (by decide)

/-- Claim C4: in every merge that completes, the stored review_count is the
sum of the existing and the incoming review_count. -/
theorem merge_review_count_additive
    (store : List Product) (inst e : Product)
    (hfind : (store.filter fun p => p.product_id = inst.product_id).head? = some e)
    (hname : py_lower inst.product_name = py_lower e.product_name)
    (hcat : py_lower inst.category = py_lower e.category)
    (hrc_e : 0 ≤ e.review_count) (hrc_i : 0 ≤ inst.review_count)
    (hq : e.quantity_sold + inst.quantity_sold ≠ 0) :
    ∃ m, modify_merge e inst = .ok m ∧
      m.review_count = e.review_count + inst.review_count ∧
      modify_already_existing_data store inst = save_update store m := by
  refine ⟨_, modify_merge_ok e inst hq, rfl, ?_⟩
  simp [modify_already_existing_data, hfind, hname, hcat, modify_merge_ok e inst hq]

/-- Witness for merge_review_count_additive at the concrete store
[w_existing] and incoming record w_incoming. -/
theorem merge_review_count_additive_witness :
    ∃ m, modify_merge w_existing w_incoming = .ok m ∧
      m.review_count = w_existing.review_count + w_incoming.review_count ∧
      modify_already_existing_data [w_existing] w_incoming = save_update [w_existing] m :=
  merge_review_count_additive [w_existing] w_incoming w_existing
    (by decide) (by decide) (by decide) (by decide) (by decide) (by decide)

/-- Claim C3 as stated is false: z_incoming matches z_existing on name and
category up to letter case (the case differs, so this is exactly the
claim's merge situation), yet the store is left unchanged — no merge
happens, because both quantities are 0 and the ZeroDivisionError inside
the merge computation is swallowed.  A merge would have changed
review_count from 1 to 3. -/
theorem name_case_merge_counterexample :
    py_lower z_incoming.product_name = py_lower z_existing.product_name ∧
    py_lower z_incoming.category = py_lower z_existing.category ∧
    z_incoming.product_name ≠ z_existing.product_name ∧
    modify_already_existing_data [z_existing] z_incoming = [z_existing] ∧
    z_existing.review_count + z_incoming.review_count ≠ z_existing.review_count := by
  refine ⟨by decide, by decide, by decide, ?_, by decide⟩
  have hfind : (([z_existing] : List Product).filter
      fun p => p.product_id = z_incoming.product_id).head? = some z_existing := by decide
  have hn : py_lower z_incoming.product_name = py_lower z_existing.product_name := by decide
  have hc : py_lower z_incoming.category = py_lower z_existing.category := by decide
  simp only [modify_already_existing_data, hfind, hn, hc, and_self, if_true,
    modify_merge_zero z_existing z_incoming (by decide)]

/-- Claim C3 amended: with an existing record of the same product_id, a
case-insensitive mismatch of product_name or category leaves the store
untouched (no insert, no update, no error); a case-insensitive match of
both performs the merge provided the combined quantity_sold is nonzero
(when it is zero the caught ZeroDivisionError leaves the store untouched,
see the zero-quantity claim). -/
theorem name_case_reconciliation
    (store : List Product) (inst e : Product)
    (hfind : (store.filter fun p => p.product_id = inst.product_id).head? = some e) :
    (¬(py_lower inst.product_name = py_lower e.product_name ∧
        py_lower inst.category = py_lower e.category) →
      modify_already_existing_data store inst = store) ∧
    (py_lower inst.product_name = py_lower e.product_name →
      py_lower inst.category = py_lower e.category →
      e.quantity_sold + inst.quantity_sold ≠ 0 →
      ∃ m, modify_merge e inst = .ok m ∧
        modify_already_existing_data store inst = save_update store m) := by
  constructor
  · intro hmm
    simp [modify_already_existing_data, hfind, hmm]
  · intro hname hcat hq
    refine ⟨_, modify_merge_ok e inst hq, ?_⟩
    simp [modify_already_existing_data, hfind, hname, hcat, modify_merge_ok e inst hq]

/-- Witness for name_case_reconciliation at the concrete store [w_existing]
and incoming record w_incoming. -/
theorem name_case_reconciliation_witness :
    (¬(py_lower w_incoming.product_name = py_lower w_existing.product_name ∧
        py_lower w_incoming.category = py_lower w_existing.category) →
      modify_already_existing_data [w_existing] w_incoming = [w_existing]) ∧
    (py_lower w_incoming.product_name = py_lower w_existing.product_name →
      py_lower w_incoming.category = py_lower w_existing.category →
      w_existing.quantity_sold + w_incoming.quantity_sold ≠ 0 →
      ∃ m, modify_merge w_existing w_incoming = .ok m ∧
        modify_already_existing_data [w_existing] w_incoming = save_update [w_existing] m) :=
  name_case_reconciliation [w_existing] w_incoming w_existing (by decide)

/-- Claim C10: when the existing and incoming quantity_sold sum to 0, the
merge computation raises ZeroDivisionError, the surrounding handler
swallows it, and the store is returned unchanged — the record is silently
skipped. -/
theorem zero_quantity_merge_skipped
    (store : List Product) (inst e : Product)
    (hfind : (store.filter fun p => p.product_id = inst.product_id).head? = some e)
    (hname : py_lower inst.product_name = py_lower e.product_name)
    (hcat : py_lower inst.category = py_lower e.category)
    (hq : e.quantity_sold + inst.quantity_sold = 0) :
    modify_merge e inst = .error .zeroDivisionError ∧
    modify_already_existing_data store inst = store := by
  refine ⟨modify_merge_zero e inst hq, ?_⟩
  simp [modify_already_existing_data, hfind, hname, hcat, modify_merge_zero e inst hq]

/-- Witness for zero_quantity_merge_skipped at the concrete store
[z_existing] and incoming record z_incoming, whose quantities are both 0. -/
theorem zero_quantity_merge_skipped_witness :
    modify_merge z_existing z_incoming = .error .zeroDivisionError ∧
    modify_already_existing_data [z_existing] z_incoming = [z_existing] :=
  zero_quantity_merge_skipped [z_existing] z_incoming z_existing
    (by decide) (by decide) (by decide) (by decide)

/-- How an instance's individual `save()` behaves when the fallback loop of
upload_data_in_batches reaches it: it either succeeds or raises one of the
embedded exception kinds.  The store interaction is abstracted to this
outcome, since the claim is about control flow, not stored values. -/
inductive SaveOutcome where
  | success
  | raise (e : PyExc)
deriving Repr, DecidableEq

/-- The per-batch fallback loop of upload_data_in_batches (upload_data.py
lines 147-156): for each index from the batch start for batch_size steps,
index the instance list (an index past the end raises IndexError, hitting
`except IndexError: break`) and call save; an IntegrityError routes to
modify_already_existing_data (which contains its own errors) and the loop
continues; an IndexError raised by the save itself hits the same
`except IndexError: break` and ends the loop; any other exception is
printed and the loop continues.  The result is the list of indices whose
individual handling ran. -/
def fallback_loop (outcomes : List SaveOutcome) : Nat → Nat → List Nat
  | _, 0 => []
  | start, fuel + 1 =>
    match outcomes[start]? with
    | none => []
    | some .success => start :: fallback_loop outcomes (start + 1) fuel
    | some (.raise .integrityError) => start :: fallback_loop outcomes (start + 1) fuel
    | some (.raise .indexError) => [start]
    | some (.raise _) => start :: fallback_loop outcomes (start + 1) fuel

/-- upload_data_in_batches (upload_data.py lines 144-156): batches start at
0, batch_size, 2 x batch_size, ... below the instance count; a batch whose
bulk_create succeeds needs no per-record handling, a batch whose
bulk_create raises falls back to the per-record loop.  bulk_create_fails
abstracts, per batch start, whether the bulk insert raises. -/
def upload_data_in_batches (outcomes : List SaveOutcome)
    (bulk_create_fails : Nat → Bool) (batch_size : Nat) : List Nat :=
  (((List.range ((outcomes.length + batch_size - 1) / batch_size)).map
      (fun b => b * batch_size)).map
    (fun st => if bulk_create_fails st then fallback_loop outcomes st batch_size else [])).flatten

lemma fallback_loop_mem (outcomes : List SaveOutcome) :
    ∀ fuel start i, start ≤ i → i < start + fuel → i < outcomes.length →
      (∀ j, start ≤ j → j < i → outcomes[j]? ≠ some (.raise .indexError)) →
      i ∈ fallback_loop outcomes start fuel := by
  intro fuel
  induction fuel with
  | zero => intro start i h1 h2 _ _; omega
  | succ fuel ih =>
    intro start i h1 h2 h3 h4
    have hs : start < outcomes.length := by omega
    obtain ⟨o, ho⟩ : ∃ o, outcomes[start]? = some o := by
      rw [List.getElem?_eq_getElem hs]; exact ⟨_, rfl⟩
    rcases eq_or_lt_of_le h1 with heq | hlt
    · subst heq
      cases o with
      | success => simp [fallback_loop, ho]
      | raise e => cases e <;> simp [fallback_loop, ho]
    · have hne := h4 start (Nat.le_refl start) hlt
      have hmem : i ∈ fallback_loop outcomes (start + 1) fuel := by
        refine ih (start + 1) i (by omega) (by omega) h3 ?_
        intro j hj1 hj2
        exact h4 j (by omega) hj2
      cases o with
      | success => simp [fallback_loop, ho, hmem]
      | raise e =>
        cases e with
        | indexError => exact absurd ho hne
        | zeroDivisionError => simp [fallback_loop, ho, hmem]
        | integrityError => simp [fallback_loop, ho, hmem]
        | valueError => simp [fallback_loop, ho, hmem]
        | otherError => simp [fallback_loop, ho, hmem]

/-- Claim C5 as stated is false: in a batch of two records whose bulk insert
fails, the first record's individual save raising IndexError ends the
per-batch fallback loop, so the second record of the same batch is never
handled — its index 1 is missing from the handled-index list [0]. -/
theorem batch_error_containment_counterexample :
    upload_data_in_batches [.raise .indexError, .success] (fun _ => true) 2 = [0] ∧
    (1 : Nat) ∉ upload_data_in_batches [.raise .indexError, .success] (fun _ => true) 2 := by
  refine ⟨by decide, by decide⟩

/-- Claim C5 amended: no exception in per-record handling ever reaches the
caller (every handler arm of the embedding returns normally), and a
record's failure never stops later records — except that an IndexError
raised by a record's save takes the break meant for the end-of-list
sentinel and silently skips the rest of that record's batch (later batches
are unaffected, since the condition below only constrains the records of
record i's own batch).  Precisely: a record i in a batch whose bulk insert
fails is individually handled whenever no earlier record of its own batch
raised IndexError, whatever other exceptions (IntegrityError, or any
other) earlier records raised. -/
theorem batch_error_containment
    (outcomes : List SaveOutcome) (bulk_create_fails : Nat → Bool)
    (batch_size i : Nat)
    (hbs : 0 < batch_size) (hi : i < outcomes.length)
    (hfail : bulk_create_fails (i / batch_size * batch_size) = true)
    (hnoidx : ∀ j, i / batch_size * batch_size ≤ j → j < i →
      outcomes[j]? ≠ some (.raise .indexError)) :
    i ∈ upload_data_in_batches outcomes bulk_create_fails batch_size := by
  have hmod := Nat.div_add_mod i batch_size
  have hlt := Nat.mod_lt i hbs
  have hstart_le : i / batch_size * batch_size ≤ i := Nat.div_mul_le_self i batch_size
  have hend : i < i / batch_size * batch_size + batch_size := by
    have : batch_size * (i / batch_size) = i / batch_size * batch_size := Nat.mul_comm _ _
    omega
  have hrange : i / batch_size < (outcomes.length + batch_size - 1) / batch_size := by
    have h1 : (i + batch_size) / batch_size = i / batch_size + 1 :=
      Nat.add_div_right i hbs
    have h2 : i + batch_size ≤ outcomes.length + batch_size - 1 := by omega
    have h3 : (i + batch_size) / batch_size ≤ (outcomes.length + batch_size - 1) / batch_size :=
      Nat.div_le_div_right h2
    omega
  unfold upload_data_in_batches
  rw [List.mem_flatten]
  refine ⟨fallback_loop outcomes (i / batch_size * batch_size) batch_size, ?_, ?_⟩
  · rw [List.mem_map]
    refine ⟨i / batch_size * batch_size, ?_, by rw [hfail]; simp⟩
    rw [List.mem_map]
    exact ⟨i / batch_size, List.mem_range.mpr hrange, rfl⟩
  · exact fallback_loop_mem outcomes batch_size (i / batch_size * batch_size) i
      hstart_le hend hi hnoidx

/-- Witness for batch_error_containment: in a failing batch of three
records where record 0 raises IntegrityError and record 2 raises a generic
exception, record 2 is still individually handled. -/
theorem batch_error_containment_witness :
    (2 : Nat) ∈ upload_data_in_batches
      [.raise .integrityError, .success, .raise .otherError] (fun _ => true) 3 :=
  batch_error_containment [.raise .integrityError, .success, .raise .otherError]
    (fun _ => true) 3 2 (by decide) (by decide) rfl
    (by intro j h1 h2; interval_cases j <;> decide)

/-- One row of the category summary built by generate_summary (utils.py
lines 14-33). -/
structure SummaryRow where
  category : String
  total_revenue : ℚ
  top_product : String
  top_product_quantity_sold : ℤ
deriving Repr, DecidableEq

/-- The distinct values of a list in first-encountered order, embedding
`Product.objects.values("category").distinct()` over the list store. -/
def distinct_firsts : List String → List String
  | [] => []
  | c :: cs => c :: (distinct_firsts cs).filter (fun d => d ≠ c)

/-- Python `max(products, key=lambda p: p.quantity_sold)`: a left fold that
replaces the best element only on a strictly greater key, so the first
element attaining the maximum wins; None on an empty list (where Python
raises ValueError). -/
def pymax_qty : List Product → Option Product
  | [] => none
  | p :: ps =>
    some (ps.foldl (fun best q => if q.quantity_sold > best.quantity_sold then q else best) p)

/-- The body of generate_summary's per-category loop: filter the store by
the category, sum price times quantity_sold over the filtered records, take
the quantity maximum as the top product; `max` of an empty sequence raises
ValueError (unreachable here, since every listed category has a record). -/
def category_row (store : List Product) (c : String) : Except PyExc SummaryRow :=
  let products := store.filter (fun p => p.category = c)
  let total_revenue := (products.map (fun p => p.price * (p.quantity_sold : ℚ))).sum
  match pymax_qty products with
  | some top => .ok
      { category := c
        total_revenue := total_revenue
        top_product := top.product_name
        top_product_quantity_sold := top.quantity_sold }
  | none => .error .valueError

/-- The summary_data accumulation loop of generate_summary, one row
appended per distinct category. -/
def summary_rows (store : List Product) : List String → Except PyExc (List SummaryRow)
  | [] => .ok []
  | c :: cs => do
    let row ← category_row store c
    let rest ← summary_rows store cs
    return row :: rest

/-- generate_summary's summary_data list: one row per distinct category of
the store. -/
def summary_data (store : List Product) : Except PyExc (List SummaryRow) :=
  summary_rows store (distinct_firsts (store.map (fun p => p.category)))

/-- Modelled from the spec: the record with maximum quantity_sold, ties
resolved in favour of the first-encountered record — the maximum of the
tail replaces the head only when strictly greater. -/
def first_max_qty : List Product → Option Product
  | [] => none
  | p :: ps =>
    some (match first_max_qty ps with
      | none => p
      | some q => if q.quantity_sold > p.quantity_sold then q else p)

/-- Modelled from the spec: one summary row per distinct category of the
store, whose total_revenue is the sum of price times quantity_sold over the
records of that category and whose top product is the first-encountered
record of maximum quantity_sold. -/
def spec_summary (store : List Product) : List SummaryRow :=
  (distinct_firsts (store.map (fun p => p.category))).map fun c =>
    let products := store.filter (fun p => p.category = c)
    { category := c
      total_revenue := (products.map (fun p => p.price * (p.quantity_sold : ℚ))).sum
      top_product := ((first_max_qty products).map Product.product_name).getD ""
      top_product_quantity_sold := ((first_max_qty products).map Product.quantity_sold).getD 0 }

lemma first_max_qty_eq_none {l : List Product} : first_max_qty l = none ↔ l = [] := by
  cases l <;> simp [first_max_qty]

lemma foldl_best_eq (p : Product) (ps : List Product) :
    ps.foldl (fun best q => if q.quantity_sold > best.quantity_sold then q else best) p =
      match first_max_qty ps with
      | none => p
      | some q => if q.quantity_sold > p.quantity_sold then q else p := by
  induction ps generalizing p with
  | nil => rfl
  | cons a as ih =>
    rw [List.foldl_cons, ih]
    cases h : first_max_qty as with
    | none =>
      have : as = [] := first_max_qty_eq_none.mp h
      subst this
      simp [first_max_qty]
    | some q =>
      simp only [first_max_qty, h]
      split_ifs <;> first | rfl | omega

lemma pymax_qty_eq_first_max (l : List Product) : pymax_qty l = first_max_qty l := by
  cases l with
  | nil => rfl
  | cons p ps => rw [pymax_qty, foldl_best_eq, first_max_qty]

lemma first_max_qty_mem : ∀ (l : List Product) (t : Product),
    first_max_qty l = some t → t ∈ l := by
  intro l
  induction l with
  | nil => intro t h; simp [first_max_qty] at h
  | cons p ps ih =>
    intro t h
    rw [first_max_qty] at h
    cases hps : first_max_qty ps with
    | none => rw [hps] at h; simp at h; simp [h]
    | some q =>
      rw [hps] at h
      simp only [Option.some.injEq] at h
      by_cases hgt : q.quantity_sold > p.quantity_sold
      · rw [if_pos hgt] at h
        exact h ▸ List.mem_cons_of_mem p (ih q hps)
      · rw [if_neg hgt] at h
        simp [← h]

lemma first_max_qty_ge : ∀ (l : List Product) (t : Product),
    first_max_qty l = some t → ∀ q ∈ l, q.quantity_sold ≤ t.quantity_sold := by
  intro l
  induction l with
  | nil => intro t _ q hq; simp at hq
  | cons p ps ih =>
    intro t h q hq
    rw [first_max_qty] at h
    rcases List.mem_cons.mp hq with hqp | hqps
    · cases hps : first_max_qty ps with
      | none => rw [hps] at h; simp at h; rw [hqp, ← h]
      | some m =>
        rw [hps] at h; simp only [Option.some.injEq] at h
        rw [hqp]
        by_cases hgt : m.quantity_sold > p.quantity_sold
        · rw [if_pos hgt] at h; rw [← h]; omega
        · rw [if_neg hgt] at h; rw [← h]
    · cases hps : first_max_qty ps with
      | none =>
        have hnil : ps = [] := first_max_qty_eq_none.mp hps
        rw [hnil] at hqps; simp at hqps
      | some m =>
        have hle := ih m hps q hqps
        rw [hps] at h; simp only [Option.some.injEq] at h
        by_cases hgt : m.quantity_sold > p.quantity_sold
        · rw [if_pos hgt] at h; rw [← h]; exact hle
        · rw [if_neg hgt] at h; rw [← h]; omega

lemma first_max_qty_first : ∀ (l : List Product) (t : Product),
    first_max_qty l = some t →
      ∃ l1 l2, l = l1 ++ t :: l2 ∧ ∀ q ∈ l1, q.quantity_sold < t.quantity_sold := by
  intro l
  induction l with
  | nil => intro t h; simp [first_max_qty] at h
  | cons p ps ih =>
    intro t h
    rw [first_max_qty] at h
    cases hps : first_max_qty ps with
    | none =>
      rw [hps] at h; simp at h
      exact ⟨[], ps, by simp [h], by simp⟩
    | some m =>
      rw [hps] at h
      simp only [Option.some.injEq] at h
      by_cases hgt : m.quantity_sold > p.quantity_sold
      · rw [if_pos hgt] at h
        obtain ⟨l1, l2, hsplit, hlt⟩ := ih m hps
        subst h
        refine ⟨p :: l1, l2, by simp [hsplit], ?_⟩
        intro q hq
        rcases List.mem_cons.mp hq with hq | hq
        · subst hq; exact hgt
        · exact hlt q hq
      · rw [if_neg hgt] at h
        exact ⟨[], ps, by simp [← h], by simp⟩

lemma mem_distinct_firsts {l : List String} {c : String} :
    c ∈ distinct_firsts l ↔ c ∈ l := by
  induction l with
  | nil => simp [distinct_firsts]
  | cons a as ih =>
    simp only [distinct_firsts, List.mem_cons, List.mem_filter]
    constructor
    · rintro (h | ⟨h, _⟩)
      · exact Or.inl h
      · exact Or.inr (ih.mp h)
    · rintro (h | h)
      · exact Or.inl h
      · by_cases hc : c = a
        · exact Or.inl hc
        · exact Or.inr ⟨ih.mpr h, by simpa using hc⟩

lemma distinct_firsts_nodup : ∀ l : List String, (distinct_firsts l).Nodup := by
  intro l
  induction l with
  | nil => simp [distinct_firsts]
  | cons a as ih =>
    rw [distinct_firsts]
    refine List.Nodup.cons ?_ (List.Nodup.filter _ ih)
    intro hmem
    have := (List.mem_filter.mp hmem).2
    simp at this

lemma category_row_ok (store : List Product) (c : String)
    (hne : store.filter (fun p => p.category = c) ≠ []) :
    category_row store c = .ok
      { category := c
        total_revenue := ((store.filter (fun p => p.category = c)).map
          (fun p => p.price * (p.quantity_sold : ℚ))).sum
        top_product := ((first_max_qty (store.filter (fun p => p.category = c))).map
          Product.product_name).getD ""
        top_product_quantity_sold := ((first_max_qty (store.filter (fun p => p.category = c))).map
          Product.quantity_sold).getD 0 } := by
  obtain ⟨t, ht⟩ : ∃ t, first_max_qty (store.filter (fun p => p.category = c)) = some t := by
    cases hl : store.filter (fun p => p.category = c) with
    | nil => exact absurd hl hne
    | cons p ps => exact ⟨_, by rw [first_max_qty]⟩
  rw [category_row]
  rw [pymax_qty_eq_first_max, ht]
  simp [ht]

lemma summary_rows_ok (store : List Product) :
    ∀ cs : List String, (∀ c ∈ cs, store.filter (fun p => p.category = c) ≠ []) →
      summary_rows store cs = .ok (cs.map fun c =>
        { category := c
          total_revenue := ((store.filter (fun p => p.category = c)).map
            (fun p => p.price * (p.quantity_sold : ℚ))).sum
          top_product := ((first_max_qty (store.filter (fun p => p.category = c))).map
            Product.product_name).getD ""
          top_product_quantity_sold :=
            ((first_max_qty (store.filter (fun p => p.category = c))).map
              Product.quantity_sold).getD 0 }) := by
  intro cs
  induction cs with
  | nil => intro _; rfl
  | cons c cs ih =>
    intro h
    rw [summary_rows, category_row_ok store c (h c (List.mem_cons_self c cs)),
      ih (fun d hd => h d (List.mem_cons_of_mem c hd))]
    rfl

/-- The concrete store from the claim's example: two category A records
(price 10, qty 5 and price 20, qty 1) and one category B record
(price 5, qty 100). -/
def c6_a1 : Product :=
  { product_id := "A1", product_name := "Alpha", category := "A",
    price := 10, quantity_sold := 5, rating := 0, review_count := 0 }

/-- The second category A record of the claim's example. -/
def c6_a2 : Product :=
  { product_id := "A2", product_name := "Beta", category := "A",
    price := 20, quantity_sold := 1, rating := 0, review_count := 0 }

/-- The category B record of the claim's example. -/
def c6_b1 : Product :=
  { product_id := "B1", product_name := "Gamma", category := "B",
    price := 5, quantity_sold := 100, rating := 0, review_count := 0 }

/-- The example store itself. -/
def c6_store : List Product := [c6_a1, c6_a2, c6_b1]

/-- Claim C6: the summary refines its specification — one row per distinct
category (distinct_firsts is duplicate-free and holds exactly the
categories present), each row's total_revenue the sum of price times
quantity_sold over that category and its top product the first-encountered
record of maximum quantity_sold (first_max_qty returns a member that is
maximal and is preceded only by strictly smaller records) — and on the
claim's example store category A totals 70 with the qty-5 record on top
and category B totals 500. -/
theorem summary_matches_spec :
    (∀ store : List Product, summary_data store = .ok (spec_summary store)) ∧
    (∀ l : List String, (distinct_firsts l).Nodup ∧ ∀ c, c ∈ distinct_firsts l ↔ c ∈ l) ∧
    (∀ (l : List Product) (t : Product), first_max_qty l = some t →
      t ∈ l ∧ (∀ q ∈ l, q.quantity_sold ≤ t.quantity_sold) ∧
      ∃ l1 l2, l = l1 ++ t :: l2 ∧ ∀ q ∈ l1, q.quantity_sold < t.quantity_sold) ∧
    summary_data c6_store = .ok
      [ { category := "A", total_revenue := 70, top_product := "Alpha",
          top_product_quantity_sold := 5 },
        { category := "B", total_revenue := 500, top_product := "Gamma",
          top_product_quantity_sold := 100 } ] := by
  have hmain : ∀ store : List Product, summary_data store = .ok (spec_summary store) := by
    intro store
    rw [summary_data, spec_summary]
    refine summary_rows_ok store _ ?_
    intro c hc
    obtain ⟨p, hp, hpc⟩ := List.mem_map.mp (mem_distinct_firsts.mp hc)
    have : p ∈ store.filter (fun q => q.category = c) :=
      List.mem_filter.mpr ⟨hp, by simp [hpc]⟩
    exact List.ne_nil_of_mem this
  refine ⟨hmain, fun l => ⟨distinct_firsts_nodup l, fun c => mem_distinct_firsts⟩,
    fun l t h => ⟨first_max_qty_mem l t h, first_max_qty_ge l t h,
      first_max_qty_first l t h⟩, ?_⟩
  rw [hmain c6_store]
  have hD : distinct_firsts (c6_store.map fun p => p.category) = ["A", "B"] := by decide
  have hfA : c6_store.filter (fun p => p.category = "A") = [c6_a1, c6_a2] := by decide
  have hfB : c6_store.filter (fun p => p.category = "B") = [c6_b1] := by decide
  have hmA : first_max_qty [c6_a1, c6_a2] = some c6_a1 := by decide
  have hmB : first_max_qty [c6_b1] = some c6_b1 := by decide
  simp only [spec_summary, hD, hfA, hfB, hmA, hmB, List.map_cons, List.map_nil]
  norm_num [c6_a1, c6_a2, c6_b1, Option.map, Option.getD, SummaryRow.mk.injEq,
    List.sum_cons, List.sum_nil]

/-- One raw row of the upload CSV as it matters to the rating-imputation
step of extract_and_clean_product_data: the category string and the rating
cell, none standing for a missing (NaN) value. -/
structure RawRow where
  category : String
  rating : Option ℚ
deriving Repr, DecidableEq

/-- The ratings originally present in the rows of one category — what the
pandas group series holds before fillna. -/
def present_ratings (rows : List RawRow) (c : String) : List ℚ :=
  (rows.filter (fun r => r.category = c)).filterMap (fun r => r.rating)

/-- The pandas group mean `x.mean()`: the mean of the present values,
NaN (none) when the group has no present value. -/
def group_mean (rows : List RawRow) (c : String) : Option ℚ :=
  let present := present_ratings rows c
  if present.isEmpty then none
  else some (present.sum / (present.length : ℚ))

/-- The rating-imputation line of extract_and_clean_product_data
(upload_data.py line 36):
`df.groupby("category")["rating"].transform(lambda x: x.fillna(x.mean()))`
followed by the to_numeric coercion (the identity on this embedding) —
a present rating is kept, a missing one is filled with its category's
group mean, which is itself missing when the category has no present
rating.  The function is total: no input raises. -/
def fill_rating_by_category_mean (rows : List RawRow) : List RawRow :=
  rows.map fun r =>
    match r.rating with
    | some _ => r
    | none => { r with rating := group_mean rows r.category }

/-- Modelled from the spec: the value a missing rating receives — the mean
(sum over count) of the originally-present ratings of the same category,
or nothing when that category has no present rating. -/
def spec_filled_rating (rows : List RawRow) (c : String) : Option ℚ :=
  if present_ratings rows c = [] then none
  else some ((present_ratings rows c).sum / ((present_ratings rows c).length : ℚ))

/-- Claim C7: a missing rating is filled with the mean of the
originally-present ratings of its category, stays missing when that
category has no present rating, and the cleaning step succeeds (in
particular it keeps every row: same length). -/
theorem rating_filled_with_category_mean
    (rows : List RawRow) (i : Nat) (r : RawRow)
    (hi : rows[i]? = some r) (hmiss : r.rating = none) :
    (fill_rating_by_category_mean rows)[i]? =
      some { r with rating := spec_filled_rating rows r.category } ∧
    (fill_rating_by_category_mean rows).length = rows.length := by
  constructor
  · rw [fill_rating_by_category_mean, List.getElem?_map, hi, Option.map_some']
    rw [hmiss]
    rw [group_mean, spec_filled_rating]
    simp [List.isEmpty_iff]
  · exact List.length_map rows _

/-- A concrete four-row batch: category A has one missing rating and the
present ratings 4 and 2, category B has only a missing rating. -/
def c7_rows : List RawRow :=
  [ { category := "A", rating := none },
    { category := "A", rating := some 4 },
    { category := "A", rating := some 2 },
    { category := "B", rating := none } ]

/-- The first row of c7_rows, whose rating is missing. -/
def c7_row0 : RawRow := { category := "A", rating := none }

/-- Witness for rating_filled_with_category_mean at row 0 of the concrete
batch c7_rows. -/
theorem rating_filled_with_category_mean_witness :
    (fill_rating_by_category_mean c7_rows)[0]? =
      some { c7_row0 with rating := spec_filled_rating c7_rows c7_row0.category } ∧
    (fill_rating_by_category_mean c7_rows).length = c7_rows.length :=
  rating_filled_with_category_mean c7_rows 0 c7_row0 rfl rfl

/-- Modelled from the spec: the fixed failure message constant of the
constants module (products/constants.py, not among the provided sources);
only its being a fixed string matters to the claims. -/
def DATA_UPLOAD_FAILURE_MESSAGE : String := "Data upload failed"

/-- Modelled from the spec: the fixed success message constant of the
constants module. -/
def DATA_UPLOAD_SUCCESSFUL_MESSAGE : String := "Data uploaded successfully"

/-- Modelled from the spec: the fixed summary-report failure message
constant of the constants module. -/
def SUMMARY_REPORT_FAILURE_MESSAGE : String := "Summary report generation failed"

/-- What UploadData.post returns: either a json body with a success flag, a
message and a status code (`Response(res, status=response_status)`), or the
bare exception handed to `Response(e)` with rest_framework's default status
200 and neither flag nor message. -/
inductive UploadResponse where
  | jsonBody (success : Bool) (message : String) (status : Nat)
  | rawException (e : String)
deriving Repr, DecidableEq

/-- UploadData.post (views.py lines 14-33): res is initialised to the fixed
failure body with status 400, the try block reads the csv path, cleans and
uploads, and on success replaces res with the fixed success body and
status 200; but `except Exception as e: return Response(e)` returns the
bare exception instead of the prepared failure body, which is therefore
dead.  The try block's outcome is abstracted as an Except value carrying
the exception text. -/
def UploadData_post (tryOutcome : Except String Unit) : UploadResponse :=
  let res := UploadResponse.jsonBody false DATA_UPLOAD_FAILURE_MESSAGE 400
  match tryOutcome with
  | .error e => UploadResponse.rawException e
  | .ok _ =>
    let res := UploadResponse.jsonBody true DATA_UPLOAD_SUCCESSFUL_MESSAGE 200
    res

/-- Claim C8: false for failures.  A failing upload returns the raised
exception itself (Response(e)) — two different exceptions give two
different responses, and no failing call ever returns the fixed failure
body prepared from DATA_UPLOAD_FAILURE_MESSAGE; only the success message
behaves as the fixed constant the claim states. -/
theorem upload_failure_response_not_fixed :
    UploadData_post (.error "KeyError") = .rawException "KeyError" ∧
    UploadData_post (.error "FileNotFoundError") = .rawException "FileNotFoundError" ∧
    UploadData_post (.error "KeyError") ≠ UploadData_post (.error "FileNotFoundError") ∧
    (∀ e, UploadData_post (.error e) ≠ .jsonBody false DATA_UPLOAD_FAILURE_MESSAGE 400) ∧
    UploadData_post (.ok ()) = .jsonBody true DATA_UPLOAD_SUCCESSFUL_MESSAGE 200 := by
  refine ⟨rfl, rfl, by decide, ?_, rfl⟩
  intro e h
  simp [UploadData_post] at h

/-- What generate_summary hands back on success: export_to_csv's StringIO,
embedded as the header line written by writer.writeheader plus the data
rows written by writer.writerows. -/
structure CsvOutput where
  header : List String
  rows : List SummaryRow
deriving Repr, DecidableEq

/-- export_to_csv (utils.py lines 6-11): `data[0].keys()` indexes the first
element, so an empty data list raises IndexError before anything is
written; otherwise the header is the summary dict's key list and every row
is written. -/
def export_to_csv (data : List SummaryRow) : Except PyExc CsvOutput :=
  match data with
  | [] => .error .indexError
  | _ :: _ => .ok
      { header := ["category", "total_revenue", "top_product", "top_product_quantity_sold"]
        rows := data }

/-- generate_summary (utils.py lines 14-33): build the per-category
summary_data rows, then serialize them through export_to_csv. -/
def generate_summary (store : List Product) : Except PyExc CsvOutput := do
  let rows ← summary_data store
  export_to_csv rows

/-- What SummaryReport.get returns: the CSV attachment on success, or the
structured json error body with status 500 when generate_summary raises. -/
inductive ReportResponse where
  | csvAttachment (c : CsvOutput)
  | errorJson (message : String) (status : Nat)
deriving Repr, DecidableEq

/-- SummaryReport.get (views.py lines 40-53): try generate_summary and wrap
it as a text/csv attachment; any exception is caught and answered with the
fixed failure message as a json error with status 500. -/
def SummaryReport_get (store : List Product) : ReportResponse :=
  match generate_summary store with
  | .ok c => .csvAttachment c
  | .error _ => .errorJson SUMMARY_REPORT_FAILURE_MESSAGE 500

/-- Claim C9: on an empty store the summary rows are empty, export_to_csv's
first-row indexing raises IndexError instead of producing a header-only
CSV, and the report boundary returns the structured json error with
status 500 rather than a CSV stream. -/
theorem empty_store_summary_raises :
    summary_data ([] : List Product) = .ok [] ∧
    generate_summary ([] : List Product) = .error .indexError ∧
    SummaryReport_get ([] : List Product) =
      .errorJson SUMMARY_REPORT_FAILURE_MESSAGE 500 := by
  refine ⟨rfl, rfl, rfl⟩

end ECommerce
